import Mathlib

/-!
Verification of summa_plot/spatial.py (spatial plotting for SUMMA output).

The module defines four functions: add_map_features, gen_patches, spatial and
hovmuller.  We embed each of them shallowly:

* Geometry objects (shapely polygons) are modelled by their coordinate data:
  a single polygon is an exterior ring plus interior rings; a multi-polygon is
  a list of single polygons.  The external simplification algorithm
  (shapely simplify with a tolerance) is an arbitrary parameter of the
  embedding, since the repository only calls it through its public interface.
* Matplotlib axes are modelled as an event log: every add_feature,
  add_collection and autoscale_view call is recorded in order.
* Python exceptions are modelled by an error type; the three distinct
  raise sites of hovmuller get one constructor each (the source raises the
  builtin Exception with a fixed message at each site), and AttributeError is
  a separate constructor, since calling .keys() on a Python list object
  raises AttributeError at runtime.
-/

/-- A single (non-multi-part) shapely polygon: an exterior ring of coordinates
and a list of interior rings (holes). -/
structure SimplePoly where
  exterior : List (Int × Int)
  interiors : List (List (Int × Int))
deriving DecidableEq, Repr

/-- A geometry entry of the geodf geometry column: either a single polygon or
a shapely MultiPolygon, which is a sequence of constituent single polygons. -/
inductive Shp
  | poly (p : SimplePoly)
  | multi (parts : List SimplePoly)
deriving DecidableEq, Repr

/-- The constituent single polygons of a geometry: a MultiPolygon yields its
parts in order, a single polygon yields itself. -/
def Shp.parts : Shp → List SimplePoly
  | .poly p => [p]
  | .multi ps => ps

/-- matplotlib.patches.Polygon built from an array of xy coordinates. -/
structure Polygon where
  xy : List (Int × Int)
deriving DecidableEq, Repr

/-- matplotlib PatchCollection as built by gen_patches: the list of patches,
the constructor arguments linewidth=0., edgecolor=None, alpha=1.0, and the
scalar array attached with set_array. -/
structure PatchCollection where
  patches : List Polygon
  linewidth : Rat
  edgecolor : Option String
  alpha : Rat
  array : List Int
deriving DecidableEq, Repr

/-- The loop body of gen_patches over the zipped (value, geometry) pairs:
a MultiPolygon contributes one simplified-exterior patch and one copy of the
value per constituent part, any other geometry contributes a single
simplified-exterior patch and the value.  The simplification algorithm
(shapely simplify at the given tolerance) is the parameter simplify. -/
def gen_patchesLoop (simplify : Nat → SimplePoly → SimplePoly)
    (simplify_level : Nat) :
    List (Int × Shp) → List Polygon × List Int
  | [] => ([], [])
  | (val, shp) :: rest =>
    let tail := gen_patchesLoop simplify simplify_level rest
    match shp with
    | .multi subs =>
        (subs.map (fun sub => Polygon.mk (simplify simplify_level sub).exterior)
           ++ tail.1,
         subs.map (fun _ => val) ++ tail.2)
    | .poly p =>
        (Polygon.mk (simplify simplify_level p).exterior :: tail.1,
         val :: tail.2)

/-- gen_patches: simplify polygons and generate a PatchCollection.  It zips
data_array.values with geodf.geometry, flattens MultiPolygons, builds every
patch from the exterior ring of the simplified geometry, and bundles the
patches with linewidth=0., edgecolor=None, alpha=1.0 and the parallel value
array. -/
def gen_patches (simplify : Nat → SimplePoly → SimplePoly)
    (data_array : List Int) (geodf : List Shp) (simplify_level : Nat) :
    PatchCollection :=
  let acc := gen_patchesLoop simplify simplify_level (List.zip data_array geodf)
  PatchCollection.mk acc.1 0 none 1 acc.2

/-- cartopy NaturalEarthFeature construction arguments. -/
structure NaturalEarthFeature where
  category : String
  name : String
  scale : String
  facecolor : String
deriving DecidableEq, Repr

/-- Keyword arguments passed to ax.add_feature for one background layer:
optional edgecolor, optional facecolor override, optional alpha, the zorder,
and optional linewidth. -/
structure FeatureStyle where
  edgecolor : Option String
  facecolor : Option String
  alpha : Option Rat
  zorder : Nat
  linewidth : Option Nat
deriving DecidableEq, Repr

/-- One recorded operation on a matplotlib axis. -/
inductive AxEvent
  | addFeature (f : NaturalEarthFeature) (style : FeatureStyle)
  | addCollection (pc : PatchCollection)
  | autoscaleView
deriving DecidableEq, Repr

/-- cartopy projection: the model keeps its name and its proj4 parameter
set, which is all the repository reads from it. -/
structure Projection where
  name : String
  proj4_params : List (String × String)
deriving DecidableEq, Repr

/-- ccrs.Mercator(): a standard Mercator projection object. -/
def Mercator : Projection :=
  Projection.mk "Mercator" [("proj", "merc")]

/-- A matplotlib axis: the projection it was created with (when any) and the
ordered log of operations performed on it. -/
structure Ax where
  projection : Option Projection
  events : List AxEvent
deriving DecidableEq, Repr

/-- ax.add_feature f with the given keyword arguments: appends one layer. -/
def Ax.add_feature (ax : Ax) (f : NaturalEarthFeature) (style : FeatureStyle) :
    Ax :=
  Ax.mk ax.projection (ax.events ++ [AxEvent.addFeature f style])

/-- The states/provinces feature: cultural admin_1_states_provinces_lines at
50m with facecolor none. -/
def states_provinces_feature : NaturalEarthFeature :=
  NaturalEarthFeature.mk "cultural" "admin_1_states_provinces_lines" "50m"
    "none"

/-- Style of the states/provinces layer: edgecolor black, alpha .8,
zorder 2. -/
def states_provinces_style : FeatureStyle :=
  FeatureStyle.mk (some "black") none (some (8 / 10)) 2 none

/-- The country borders feature: cultural admin_0_boundary_lines_land at 50m
with facecolor none. -/
def ctry_borders_feature : NaturalEarthFeature :=
  NaturalEarthFeature.mk "cultural" "admin_0_boundary_lines_land" "50m" "none"

/-- Style of the country borders layer: edgecolor black, zorder 2,
linewidth 1. -/
def ctry_borders_style : FeatureStyle :=
  FeatureStyle.mk (some "black") none none 2 (some 1)

/-- The land feature: physical land at 50m, facecolor gray at construction. -/
def land_feature : NaturalEarthFeature :=
  NaturalEarthFeature.mk "physical" "land" "50m" "gray"

/-- Style of the land layer: facecolor lightgray, zorder 0. -/
def land_style : FeatureStyle :=
  FeatureStyle.mk none (some "lightgray") none 0 none

/-- The ocean feature: physical ocean at 50m, facecolor blue at
construction. -/
def ocean_feature : NaturalEarthFeature :=
  NaturalEarthFeature.mk "physical" "ocean" "50m" "blue"

/-- Style of the ocean layer: facecolor lightblue, zorder 1. -/
def ocean_style : FeatureStyle :=
  FeatureStyle.mk none (some "lightblue") none 1 none

/-- The rivers/lakes feature: physical rivers_lake_centerlines at 50m with
facecolor none. -/
def rivers_lakes_feature : NaturalEarthFeature :=
  NaturalEarthFeature.mk "physical" "rivers_lake_centerlines" "50m" "none"

/-- Style of the rivers/lakes layer: facecolor lightblue, zorder 2. -/
def rivers_lakes_style : FeatureStyle :=
  FeatureStyle.mk none (some "lightblue") none 2 none

/-- add_map_features: add background features to an axis.  Each of the five
boolean flags independently controls one add_feature call; the Python
function mutates the axis and returns None, which the embedding renders as
returning the updated axis. -/
def add_map_features (ax : Ax) (states_provinces country_borders land ocean
    lake : Bool) : Ax :=
  let ax := if states_provinces then
    ax.add_feature states_provinces_feature states_provinces_style else ax
  let ax := if country_borders then
    ax.add_feature ctry_borders_feature ctry_borders_style else ax
  let ax := if land then ax.add_feature land_feature land_style else ax
  let ax := if ocean then ax.add_feature ocean_feature ocean_style else ax
  let ax := if lake then
    ax.add_feature rivers_lakes_feature rivers_lakes_style else ax
  ax

/-- A matplotlib figure: the axes created on it. -/
structure Fig where
  axes : List Ax
deriving DecidableEq, Repr

/-- spatial: make a spatial plot.  Reprojects geodf into the projection's
proj4 parameter set (geopandas to_crs, an external operation, is the
parameter to_crs), generates patches from the reprojected table, creates a
figure with one axis in the target projection, adds the collection, adds the
default map features, autoscales the view, and returns figure and axis. -/
def spatial (simplify : Nat → SimplePoly → SimplePoly)
    (to_crs : List (String × String) → List Shp → List Shp)
    (data_array : List Int) (geodf : List Shp)
    (simplify_level : Nat) (proj : Projection) : Fig × Ax :=
  let geodf_crs := to_crs proj.proj4_params geodf
  let patches := gen_patches simplify data_array geodf_crs simplify_level
  let ax : Ax := Ax.mk (some proj) []
  let ax := Ax.mk ax.projection (ax.events ++ [AxEvent.addCollection patches])
  let ax := add_map_features ax true true true true false
  let ax := Ax.mk ax.projection (ax.events ++ [AxEvent.autoscaleView])
  (Fig.mk [ax], ax)

/-- spatial invoked with its default arguments simplify_level=500 and
proj=ccrs.Mercator(). -/
def spatialDefault (simplify : Nat → SimplePoly → SimplePoly)
    (to_crs : List (String × String) → List Shp → List Shp)
    (data_array : List Int) (geodf : List Shp) : Fig × Ax :=
  spatial simplify to_crs data_array geodf 500 Mercator

/-- Python errors raised by hovmuller.  attributeError models the builtin
AttributeError.  The other three constructors model the three distinct
raise sites of hovmuller, which in the source all raise the builtin
Exception with the recorded message; the specification names them
InvalidDimensionError, MissingAggregationError and
InvalidAggregationMethodError respectively. -/
inductive PyError
  | attributeError (msg : String)
  | invalidDimension (msg : String)
  | missingAggregation (msg : String)
  | invalidAggregation (msg : String)
deriving DecidableEq, Repr

/-- The time_groups variable of hovmuller: a Python list of the recognized
calendar time components. -/
def time_groups : List String :=
  ["year", "month", "day", "hour", "minute", "second", "dayofyear",
   "week", "dayofweek", "weekday", "quarter"]

/-- Calling .keys() on a Python list object: list has no attribute keys, so
the call raises AttributeError. -/
def listKeys {α : Type} (_l : List α) : Except PyError (List α) :=
  Except.error (PyError.attributeError
    "list object has no attribute keys")

/-- Python truthiness of the how argument: None and the empty string are
falsy, every other string is truthy (the source tests `not how`). -/
def pyFalsy (how : Option String) : Bool :=
  match how with
  | none => true
  | some s => s.isEmpty

/-- The reducers of the aggregation_methods dictionary, one per entry. -/
inductive AggFn
  | mean
  | max
  | min
  | median
  | std
deriving DecidableEq, Repr

/-- The aggregation_methods dictionary of hovmuller, mapping each method name
to its reducer lambda. -/
def aggregation_methods : List (String × AggFn) :=
  [("mean", AggFn.mean), ("max", AggFn.max), ("min", AggFn.min),
   ("median", AggFn.median), ("std", AggFn.std)]

/-- The xarray DataArray as read by the validation code of hovmuller: only
its dimension names are consulted before the function raises; the values,
coordinates and grouped aggregation live in the external xarray library. -/
structure DataArray where
  dims : List String
deriving DecidableEq, Repr

/-- The grouped-aggregation and rendering request that the tail of hovmuller
(lines 106-115) would hand to the external xarray groupby / matplotlib
pcolormesh machinery: the possibly rewritten grouping keys, the validated
aggregation method name, and the colormap.  That tail is unreachable: the
function raises AttributeError first (see the C3 theorem). -/
structure HovSpec where
  xdim : String
  ydim : String
  how : String
  cmap : String
deriving DecidableEq, Repr

/-- hovmuller: make a Hovmuller plot.  Faithful to the source order of
evaluation: x_da_dim is computed from data_array.dims, then
time_groups.keys() is evaluated; time_groups is a Python list, so this
raises AttributeError.  The remainder embeds the rest of the validation
logic (dimension rewriting to time.<component>, missing-aggregation and
invalid-dimension raises for each axis, and the aggregation-method check
against the keys of the aggregation_methods dictionary). -/
def hovmuller (data_array : DataArray) (xdim ydim : String)
    (how : Option String) (cmap : String) : Except PyError HovSpec :=
  let x_da_dim := xdim ∈ data_array.dims
  match listKeys time_groups with
  | .error e => .error e
  | .ok xkeys =>
    let x_tg_dim := xdim ∈ xkeys
    let xres : Except PyError String :=
      if x_tg_dim then
        let xdim := "time." ++ xdim
        if pyFalsy how then
          .error (.missingAggregation
            "Must specify aggregation method for x dimension")
        else .ok xdim
      else if !x_da_dim then
        .error (.invalidDimension "x dimension not valid")
      else .ok xdim
    match xres with
    | .error e => .error e
    | .ok xdim =>
      let y_da_dim := ydim ∈ data_array.dims
      match listKeys time_groups with
      | .error e => .error e
      | .ok ykeys =>
        let y_tg_dim := ydim ∈ ykeys
        let yres : Except PyError String :=
          if y_tg_dim then
            let ydim := "time." ++ ydim
            if pyFalsy how then
              .error (.missingAggregation
                "Must specify aggregation method for y dimension")
            else .ok ydim
          else if !y_da_dim then
            .error (.invalidDimension "y dimension not valid")
          else .ok ydim
        match yres with
        | .error e => .error e
        | .ok ydim =>
          match how with
          | none =>
            .error (.invalidAggregation
              "Invalid time aggregation method given")
          | some h =>
            if h ∈ aggregation_methods.map Prod.fst then
              .ok (HovSpec.mk xdim ydim h cmap)
            else
              .error (.invalidAggregation
                "Invalid time aggregation method given")

/-- Sample triangle polygon used by the witnesses. -/
def triA : SimplePoly := SimplePoly.mk [(0, 0), (1, 0), (0, 1)] []

/-- Second sample triangle polygon used by the witnesses. -/
def triB : SimplePoly := SimplePoly.mk [(2, 2), (3, 2), (2, 3)] []

/-- Third sample triangle polygon used by the witnesses. -/
def triC : SimplePoly := SimplePoly.mk [(4, 4), (5, 4), (4, 5)] []

/-- Fourth sample triangle polygon used by the witnesses. -/
def triD : SimplePoly := SimplePoly.mk [(6, 6), (7, 6), (6, 7)] []

theorem gen_patchesLoop_append (simplify : Nat → SimplePoly → SimplePoly)
    (lvl : Nat) (xs ys : List (Int × Shp)) :
    gen_patchesLoop simplify lvl (xs ++ ys)
      = ((gen_patchesLoop simplify lvl xs).1
           ++ (gen_patchesLoop simplify lvl ys).1,
         (gen_patchesLoop simplify lvl xs).2
           ++ (gen_patchesLoop simplify lvl ys).2) := by
  induction xs with
  | nil => simp [gen_patchesLoop]
  | cons hd tl ih =>
    obtain ⟨val, shp⟩ := hd
    cases shp <;> simp [gen_patchesLoop, ih]

theorem gen_patchesLoop_fst (simplify : Nat → SimplePoly → SimplePoly)
    (lvl : Nat) (l : List (Int × Shp)) :
    (gen_patchesLoop simplify lvl l).1
      = (l.flatMap (fun pr => pr.2.parts)).map
          (fun p => Polygon.mk ((simplify lvl p).exterior)) := by
  induction l with
  | nil => rfl
  | cons hd tl ih =>
    obtain ⟨val, shp⟩ := hd
    cases shp <;> simp [gen_patchesLoop, Shp.parts, ih]

theorem gen_patchesLoop_lengths (simplify : Nat → SimplePoly → SimplePoly)
    (lvl : Nat) (l : List (Int × Shp)) :
    (gen_patchesLoop simplify lvl l).2.length
      = (gen_patchesLoop simplify lvl l).1.length := by
  induction l with
  | nil => rfl
  | cons hd tl ih =>
    obtain ⟨val, shp⟩ := hd
    cases shp <;> simp [gen_patchesLoop, ih]

theorem gen_patchesLoop_singles (simplify : Nat → SimplePoly → SimplePoly)
    (lvl : Nat) (data : List Int) (polys : List SimplePoly)
    (hlen : data.length = polys.length) :
    gen_patchesLoop simplify lvl (List.zip data (polys.map Shp.poly))
      = ((List.zip data polys).map
           (fun pr => Polygon.mk ((simplify lvl pr.2).exterior)),
         data) := by
  induction polys generalizing data with
  | nil =>
    cases data with
    | nil => rfl
    | cons d ds => simp at hlen
  | cons p ps ih =>
    cases data with
    | nil => simp at hlen
    | cons d ds =>
      simp only [List.length_cons, Nat.succ.injEq] at hlen
      have ih2 := ih ds hlen
      simp only [List.zip] at ih2
      simp only [List.map_cons, List.zip_cons_cons, gen_patchesLoop, ih2]
      rfl

/-- C1: for equal-length inputs in which every geometry is a single polygon,
gen_patches produces one patch per input row, and the patches appear in the
same order as the input rows (the i-th patch is built from the i-th row). -/
theorem gen_patches_single_count_order
    (simplify : Nat → SimplePoly → SimplePoly) (lvl : Nat)
    (data : List Int) (polys : List SimplePoly)
    (hlen : data.length = polys.length) :
    (gen_patches simplify data (polys.map Shp.poly) lvl).patches.length
        = polys.length
    ∧ (gen_patches simplify data (polys.map Shp.poly) lvl).patches
        = (List.zip data polys).map
            (fun pr => Polygon.mk ((simplify lvl pr.2).exterior)) := by
  have h := gen_patchesLoop_singles simplify lvl data polys hlen
  constructor
  · simp [gen_patches, h, List.length_zip, hlen]
  · simp [gen_patches, h]

/-- C1 witness: two rows of single polygons give exactly two patches. -/
theorem gen_patches_single_count_order_witness :
    ([3, 4] : List Int).length = [triA, triB].length
    ∧ (gen_patches (fun _ p => p) [3, 4]
          ([triA, triB].map Shp.poly) 500).patches.length
        = [triA, triB].length :=
  ⟨rfl, (gen_patches_single_count_order (fun _ p => p) 500 [3, 4]
    [triA, triB] rfl).1⟩

/-- C2: a record whose geometry is a MultiPolygon with parts subs yields
exactly subs.length patches, each tagged with the record's value, inserted
contiguously at the record's position between the output of the preceding
rows and the output of the following rows. -/
theorem gen_patches_multi_inplace
    (simplify : Nat → SimplePoly → SimplePoly) (lvl : Nat)
    (d1 d2 : List Int) (v : Int) (g1 g2 : List Shp)
    (subs : List SimplePoly) (h1 : d1.length = g1.length) :
    (gen_patches simplify (d1 ++ v :: d2)
        (g1 ++ Shp.multi subs :: g2) lvl).patches
      = (gen_patches simplify d1 g1 lvl).patches
        ++ subs.map (fun sub => Polygon.mk ((simplify lvl sub).exterior))
        ++ (gen_patches simplify d2 g2 lvl).patches
    ∧ (gen_patches simplify (d1 ++ v :: d2)
        (g1 ++ Shp.multi subs :: g2) lvl).array
      = (gen_patches simplify d1 g1 lvl).array
        ++ List.replicate subs.length v
        ++ (gen_patches simplify d2 g2 lvl).array := by
  have hz : List.zip (d1 ++ v :: d2) (g1 ++ Shp.multi subs :: g2)
      = List.zip d1 g1 ++ (v, Shp.multi subs) :: List.zip d2 g2 := by
    rw [List.zip_append h1, List.zip_cons_cons]
  constructor <;>
    simp [gen_patches, hz, gen_patchesLoop_append, gen_patchesLoop,
      List.map_const']

/-- C2 witness: a three-row input whose middle record is a two-part
MultiPolygon with value 2 yields the two middle patches tagged 2, in place. -/
theorem gen_patches_multi_inplace_witness :
    ([1] : List Int).length = [Shp.poly triA].length
    ∧ (gen_patches (fun _ p => p) ([1] ++ 2 :: [3])
        ([Shp.poly triA] ++ Shp.multi [triB, triC] :: [Shp.poly triD])
        500).array
        = (gen_patches (fun _ p => p) [1] [Shp.poly triA] 500).array
          ++ List.replicate [triB, triC].length 2
          ++ (gen_patches (fun _ p => p) [3] [Shp.poly triD] 500).array :=
  ⟨rfl, (gen_patches_multi_inplace (fun _ p => p) 500 [1] [3] 2
    [Shp.poly triA] [Shp.poly triD] [triB, triC] rfl).2⟩

/-- C7: every patch is the exterior ring of the simplified geometry of some
constituent part, in input order (interior rings never reach the output),
and the collection carries linewidth 0, no edgecolor, alpha 1, and a value
array of the same length as the patch list. -/
theorem gen_patches_exterior_style
    (simplify : Nat → SimplePoly → SimplePoly) (lvl : Nat)
    (data : List Int) (geodf : List Shp) :
    (gen_patches simplify data geodf lvl).patches
      = ((List.zip data geodf).flatMap (fun pr => pr.2.parts)).map
          (fun p => Polygon.mk ((simplify lvl p).exterior))
    ∧ (gen_patches simplify data geodf lvl).linewidth = 0
    ∧ (gen_patches simplify data geodf lvl).edgecolor = none
    ∧ (gen_patches simplify data geodf lvl).alpha = 1
    ∧ (gen_patches simplify data geodf lvl).array.length
        = (gen_patches simplify data geodf lvl).patches.length :=
  ⟨gen_patchesLoop_fst simplify lvl (List.zip data geodf), rfl, rfl, rfl,
   gen_patchesLoop_lengths simplify lvl (List.zip data geodf)⟩

/-- C8: with all five flags false add_map_features adds nothing; each true
flag contributes exactly one layer independently of the others; the layer
z-orders are fixed at land 0, ocean 1, borders 2; and nothing but the event
log of the axis changes. -/
theorem add_map_features_spec (ax : Ax) (sp cb ld oc lk : Bool) :
    add_map_features ax false false false false false = ax
    ∧ (add_map_features ax sp cb ld oc lk).events
        = ax.events
          ++ (cond sp [AxEvent.addFeature states_provinces_feature
                states_provinces_style] [])
          ++ (cond cb [AxEvent.addFeature ctry_borders_feature
                ctry_borders_style] [])
          ++ (cond ld [AxEvent.addFeature land_feature land_style] [])
          ++ (cond oc [AxEvent.addFeature ocean_feature ocean_style] [])
          ++ (cond lk [AxEvent.addFeature rivers_lakes_feature
                rivers_lakes_style] [])
    ∧ (add_map_features ax sp cb ld oc lk).events.length
        = ax.events.length + (cond sp 1 0) + (cond cb 1 0) + (cond ld 1 0)
          + (cond oc 1 0) + (cond lk 1 0)
    ∧ (add_map_features ax sp cb ld oc lk).projection = ax.projection
    ∧ land_style.zorder = 0 ∧ ocean_style.zorder = 1
    ∧ ctry_borders_style.zorder = 2 ∧ states_provinces_style.zorder = 2 := by
  refine ⟨rfl, ?_, ?_, ?_, rfl, rfl, rfl, rfl⟩ <;>
    cases sp <;> cases cb <;> cases ld <;> cases oc <;> cases lk <;>
      simp [add_map_features, Ax.add_feature]

/-- C9: spatial reprojects the table with the projection parameters, feeds
the result to gen_patches, creates one figure holding one axis in the target
projection, attaches the collection, adds the default features (state and
country borders, land, ocean; no lakes), autoscales last, and returns the
figure and axis; the default call uses tolerance 500 and Mercator. -/
theorem spatial_pipeline (simplify : Nat → SimplePoly → SimplePoly)
    (to_crs : List (String × String) → List Shp → List Shp)
    (data_array : List Int) (geodf : List Shp) (lvl : Nat)
    (proj : Projection) :
    (spatial simplify to_crs data_array geodf lvl proj).2.projection
        = some proj
    ∧ (spatial simplify to_crs data_array geodf lvl proj).2.events
        = AxEvent.addCollection
            (gen_patches simplify data_array
              (to_crs proj.proj4_params geodf) lvl)
          :: AxEvent.addFeature states_provinces_feature
               states_provinces_style
          :: AxEvent.addFeature ctry_borders_feature ctry_borders_style
          :: AxEvent.addFeature land_feature land_style
          :: AxEvent.addFeature ocean_feature ocean_style
          :: [AxEvent.autoscaleView]
    ∧ (spatial simplify to_crs data_array geodf lvl proj).1
        = Fig.mk [(spatial simplify to_crs data_array geodf lvl proj).2]
    ∧ spatialDefault simplify to_crs data_array geodf
        = spatial simplify to_crs data_array geodf 500 Mercator :=
  ⟨rfl, rfl, rfl, rfl⟩

/-- C3: for every input, hovmuller raises AttributeError at the dimension
validation step, because membership in the calendar component set is tested
with .keys() on the Python list time_groups; no other branch is ever
reached. -/
theorem hovmuller_attribute_error (data_array : DataArray)
    (xdim ydim : String) (how : Option String) (cmap : String) :
    hovmuller data_array xdim ydim how cmap
      = Except.error (PyError.attributeError
          "list object has no attribute keys") := rfl

/-- C4 evaluation: with an axis selector that is neither a dimension nor a
calendar component, hovmuller raises AttributeError, not the invalid
dimension error of the claim. -/
theorem hovmuller_invalid_xdim_attribute_error :
    hovmuller (DataArray.mk ["time", "hru"]) "not_a_dim" "hru"
        (some "mean") "viridis"
      = Except.error (PyError.attributeError
          "list object has no attribute keys") := rfl

/-- C5 evaluation: with valid dimensions and an unsupported aggregation
method name, hovmuller raises AttributeError, not the invalid aggregation
method error of the claim. -/
theorem hovmuller_bogus_how_attribute_error :
    hovmuller (DataArray.mk ["time", "hru"]) "time" "hru"
        (some "bogus") "viridis"
      = Except.error (PyError.attributeError
          "list object has no attribute keys") := rfl

/-- C6 evaluation: with calendar-component selectors and how=None, hovmuller
raises AttributeError, not the missing aggregation error of the claim. -/
theorem hovmuller_missing_how_attribute_error :
    hovmuller (DataArray.mk ["time", "hru"]) "month" "year" none "viridis"
      = Except.error (PyError.attributeError
          "list object has no attribute keys") := rfl

/-- C10 evaluation: with two valid dimension selectors and how=mean,
hovmuller raises AttributeError instead of computing the aggregated grid. -/
theorem hovmuller_valid_mean_attribute_error :
    hovmuller (DataArray.mk ["time", "hru"]) "time" "hru"
        (some "mean") "viridis"
      = Except.error (PyError.attributeError
          "list object has no attribute keys") := rfl
